import Mathlib

/-
  Shallow embedding of `nagios-plugin-gcp-resource.go`.

  Numeric model: Go `float64` values are modelled as exact rationals (`Rat`);
  Go `int` status codes as `Int`.  Go's `int(f)` conversion truncates toward
  zero.  The protobuf `TypedValue` oneof is modelled as an inductive whose
  getters return the zero value on a mismatched variant, as the generated
  protobuf getters do.  `fmt.Sprintf` with `%f` is modelled by `formatF`
  (fixed six fractional digits); `%d` by `toString` of the truncated integer.

  The Go program is a straight-line `main` with early process exits via
  `output` (which calls `os.Exit`).  We model the part after argument parsing
  and client construction: the iteration over the time-series responses, the
  per-group aggregation (`evaluate`), label resolution, the empty-length
  check, the threshold fold, and the final `output` call.  An out-of-range
  slice index (Go panic) is modelled by the `MainOutcome.panics` outcome.
-/

namespace Gcp

/-- Go `monitoringpb.TypedValue`: a oneof over the possible typed values.
Getters return the zero value when the variant does not match. -/
inductive TypedValue where
  | int64Val (i : Int)
  | doubleVal (d : Rat)
  | distributionMeanVal (mean : Rat)
  | boolVal (b : Bool)
  | stringVal (s : String)
deriving DecidableEq

def TypedValue.getInt64Value : TypedValue → Int
  | .int64Val i => i
  | _ => 0

def TypedValue.getDoubleValue : TypedValue → Rat
  | .doubleVal d => d
  | _ => 0

/-- `GetDistributionValue().GetMean()` composed: the distribution mean,
or zero for any other variant. -/
def TypedValue.getDistributionMean : TypedValue → Rat
  | .distributionMeanVal m => m
  | _ => 0

/-- Go `monitoringpb.Point` restricted to the field the program reads. -/
structure Point where
  value : TypedValue
deriving DecidableEq

/-- Go `getFloatValue(valueType, typedValue)` (lines 185-198). -/
def getFloatValue (valueType : String) (typedValue : TypedValue) : Rat :=
  match valueType with
  | "INT64" => (typedValue.getInt64Value : Rat)
  | "DOUBLE" => typedValue.getDoubleValue
  | "DISTRIBUTION" => typedValue.getDistributionMean
  | _ => 0

/-- Go `evaluate(evaluateType, valueType, points)` (lines 163-183).
`LAST` indexes `points[0]` unguarded; on an empty slice Go panics, which we
model as `none`.  All other paths return `some` of the computed float. -/
def evaluate (evaluateType : String) (valueType : String)
    (points : List Point) : Option Rat :=
  match evaluateType with
  | "LAST" =>
    match points with
    | [] => none
    | point :: _ => some (getFloatValue valueType point.value)
  | "SUM" =>
    some (points.foldl (fun ret point => ret + getFloatValue valueType point.value) 0)
  | "MAX" =>
    some (points.foldl (fun ret point =>
      let current := getFloatValue valueType point.value
      if current < ret then ret else current) 0)
  | _ => some 0

/-- Status constants (lines 139-144, `iota`). -/
def OK : Int := 0

def WARNING : Int := 1

def CRITICAL : Int := 2

def UNKNOWN : Int := 3

/-- Go `output(status, message)` (lines 146-161): the printed line and the
process exit code.  The `switch` default prefixes `"UNKNOWN - "`. -/
def output (status : Int) (message : String) : String × Int :=
  let line :=
    if status = OK then "OK - " ++ message
    else if status = WARNING then "WARNING - " ++ message
    else if status = CRITICAL then "CRITICAL - " ++ message
    else if status = UNKNOWN then "UNKNOWN - " ++ message
    else "UNKNOWN - " ++ message
  (line, status)

/-- Go `int(q)` for a float: truncation toward zero. -/
def truncToInt (q : Rat) : Int :=
  if 0 ≤ q then q.floor else -((-q).floor)

/-- Left-pad a digit string with zeros to six characters. -/
def padSix (s : String) : String :=
  String.mk (List.replicate (6 - s.length) '0') ++ s

/-- Model of `fmt.Sprintf` with verb `%f`: fixed six fractional digits,
rounded to nearest. -/
def formatF (q : Rat) : String :=
  let scaled : Int := (q * 1000000 + 1 / 2).floor
  let sign := if scaled < 0 then "-" else ""
  sign ++ toString (scaled.natAbs / 1000000) ++ "."
    ++ padSix (toString (scaled.natAbs % 1000000))

/-- Go `type Metric struct` (lines 31-34). -/
structure Metric where
  name : String
  value : Rat
deriving DecidableEq

/-- The three mutable locals of the threshold fold in `main` (lines 115-117). -/
structure EvalState where
  status : Int
  message : String
  perfdata : String
deriving DecidableEq

/-- `fmt.Sprintf` of line 126 / 129: the breach message with the value and
the threshold truncated to `int`. -/
def breachMessage (name evalution : String) (value threshold : Rat) : String :=
  name ++ " " ++ evalution ++ " value: " ++ toString (truncToInt value)
    ++ " over " ++ toString (truncToInt threshold)

/-- The performance-data token of line 133. -/
def perfToken (warning critical : Rat) (element : Metric) : String :=
  element.name ++ "=" ++ formatF element.value ++ ";"
    ++ toString (truncToInt warning) ++ ";" ++ toString (truncToInt critical) ++ " "

/-- One iteration of the `for _, element := range metrics` loop
(lines 119-134). -/
def evalStep (evalution : String) (warning critical : Rat)
    (st : EvalState) (element : Metric) : EvalState :=
  let st1 :=
    if critical > 0 ∧ element.value ≥ critical ∧ (st.status = OK ∨ st.status = WARNING) then
      { st with status := CRITICAL
                message := breachMessage element.name evalution element.value critical }
    else if warning > 0 ∧ element.value ≥ warning ∧ st.status = OK then
      { st with status := WARNING
                message := breachMessage element.name evalution element.value warning }
    else st
  { st1 with perfdata := st1.perfdata ++ perfToken warning critical element }

/-- The initial state of the threshold fold (lines 115-117). -/
def initState : EvalState :=
  { status := OK, message := "Everything is OK", perfdata := "|" }

/-- The Status Evaluator: the whole threshold fold of `main`. -/
def statusEval (evalution : String) (warning critical : Rat)
    (metrics : List Metric) : EvalState :=
  metrics.foldl (evalStep evalution warning critical) initState

/-- One response group from `ListTimeSeries`, restricted to the fields the
program reads.  The Go label map is modelled as an association list; its
iteration order is the list order. -/
structure TimeSeries where
  valueType : String
  labels : List (String × String)
  points : List Point
deriving DecidableEq

/-- Lines 96-104: delete `project_id` from the labels, then keep overwriting
`metric_name` with each remaining value; the last one wins, `""` if none. -/
def resolveName (labels : List (String × String)) : String :=
  let remaining := labels.filter (fun kv => kv.fst ≠ "project_id")
  remaining.foldl (fun _ kv => kv.snd) ""

/-- The observable end of a run: a printed line with an exit code, or a
runtime panic (out-of-range index). -/
inductive MainOutcome where
  | exits (line : String) (code : Int)
  | panics
deriving DecidableEq

/-- A call to `output`, as an outcome. -/
def emit (status : Int) (message : String) : MainOutcome :=
  MainOutcome.exits (output status message).fst (output status message).snd

/-- The `for { it.Next() ... }` loop of lines 77-107.  Each list element is
either an iteration error or a response group; the iterator end (Done) is the
end of the list.  Returns the early-exit outcome, or the accumulated metrics
and total point count. -/
def processResponses (evalution : String) :
    List (Except Unit TimeSeries) → List Metric → Nat →
      MainOutcome ⊕ (List Metric × Nat)
  | [], metrics, length => Sum.inr (metrics, length)
  | Except.error _ :: _, _, _ =>
    Sum.inl (emit UNKNOWN "Failed to fetch time series.")
  | Except.ok resp :: rest, metrics, length =>
    match evaluate evalution resp.valueType resp.points with
    | none => Sum.inl MainOutcome.panics
    | some metricValue =>
      processResponses evalution rest
        (metrics ++ [{ name := resolveName resp.labels, value := metricValue }])
        (length + resp.points.length)

/-- The options the modelled part of `main` reads. -/
structure Opts where
  evalution : String
  critical : Rat
  warning : Rat

/-- Lines 77-137 of `main`: iterate the responses, check `length == 0`,
run the threshold fold, and call `output`. -/
def runMain (opts : Opts) (responses : List (Except Unit TimeSeries)) : MainOutcome :=
  match processResponses opts.evalution responses [] 0 with
  | Sum.inl outcome => outcome
  | Sum.inr (metrics, length) =>
    if length = 0 then emit UNKNOWN "Time series is empty."
    else
      let st := statusEval opts.evalution opts.warning opts.critical metrics
      emit st.status (st.message ++ st.perfdata)

/-- The concatenation of the performance-data tokens of a metric list, in
input order (what the loop of lines 119-134 appends after the initial
`"|"`). -/
def perfConcat (warning critical : Rat) : List Metric → String
  | [] => ""
  | m :: ms => perfToken warning critical m ++ perfConcat warning critical ms

/-! ### Helper lemmas about the threshold fold -/

lemma evalStep_perfdata (e : String) (w c : Rat) (st : EvalState) (m : Metric) :
    (evalStep e w c st m).perfdata = st.perfdata ++ perfToken w c m := by
  unfold evalStep
  split_ifs <;> rfl

lemma evalStep_status_le (e : String) (w c : Rat) (st : EvalState) (m : Metric) :
    st.status ≤ (evalStep e w c st m).status := by
  unfold evalStep
  split_ifs with h1 h2
  · rcases h1.2.2 with h | h <;>
      simp only [h, OK, WARNING, CRITICAL] <;> norm_num
  · simp only [h2.2.2, OK, WARNING]
    norm_num
  · exact le_refl _

lemma evalStep_critical_frozen (e : String) (w c : Rat) (st : EvalState) (m : Metric)
    (h : st.status = CRITICAL) :
    (evalStep e w c st m).status = CRITICAL ∧ (evalStep e w c st m).message = st.message := by
  unfold evalStep
  split_ifs with h1 h2
  · rcases h1.2.2 with h0 | h0 <;> rw [h] at h0 <;>
      simp only [CRITICAL, OK, WARNING] at h0 <;> norm_num at h0
  · rw [h] at h2
    simp only [CRITICAL, OK] at h2
    norm_num at h2
  · exact ⟨h, rfl⟩

lemma foldl_status_le (e : String) (w c : Rat) (ms : List Metric) (st : EvalState) :
    st.status ≤ (List.foldl (evalStep e w c) st ms).status := by
  induction ms generalizing st with
  | nil => exact le_refl _
  | cons m ms ih =>
    exact le_trans (evalStep_status_le e w c st m) (ih (evalStep e w c st m))

lemma foldl_critical_frozen (e : String) (w c : Rat) (ms : List Metric) (st : EvalState)
    (h : st.status = CRITICAL) :
    (List.foldl (evalStep e w c) st ms).status = CRITICAL
    ∧ (List.foldl (evalStep e w c) st ms).message = st.message := by
  induction ms generalizing st with
  | nil => exact ⟨h, rfl⟩
  | cons m ms ih =>
    obtain ⟨hs, hm⟩ := evalStep_critical_frozen e w c st m h
    obtain ⟨hs2, hm2⟩ := ih (evalStep e w c st m) hs
    exact ⟨hs2, hm2.trans hm⟩

/-! ### Claim theorems -/

/-- C1: in the Status Evaluator fold, for every metric the critical threshold
is checked before the warning one (a value breaching both active thresholds
yields CRITICAL, never WARNING), the status is monotone along each step and
along the whole fold, once CRITICAL the status and the message are frozen,
and once WARNING the message is only ever replaced together with an upgrade
to CRITICAL. -/
theorem evalStep_precedence_monotone (e : String) (w c : Rat)
    (st : EvalState) (m : Metric) (ms : List Metric) :
    st.status ≤ (evalStep e w c st m).status
    ∧ (st.status = CRITICAL →
        (evalStep e w c st m).status = CRITICAL
        ∧ (evalStep e w c st m).message = st.message)
    ∧ (st.status = WARNING →
        (evalStep e w c st m).status = CRITICAL
        ∨ (evalStep e w c st m).message = st.message)
    ∧ (c > 0 → w > 0 → m.value ≥ c → m.value ≥ w →
        (st.status = OK ∨ st.status = WARNING) →
        (evalStep e w c st m).status = CRITICAL)
    ∧ st.status ≤ (List.foldl (evalStep e w c) st ms).status
    ∧ (st.status = CRITICAL →
        (List.foldl (evalStep e w c) st ms).status = CRITICAL
        ∧ (List.foldl (evalStep e w c) st ms).message = st.message) := by
  refine ⟨evalStep_status_le e w c st m, evalStep_critical_frozen e w c st m, ?_, ?_,
    foldl_status_le e w c ms st, foldl_critical_frozen e w c ms st⟩
  · intro hW
    unfold evalStep
    split_ifs with h1 h2
    · exact Or.inl rfl
    · rw [hW] at h2
      simp only [WARNING, OK] at h2
      norm_num at h2
    · exact Or.inr rfl
  · intro hc hw hvc hvw hst
    unfold evalStep
    split_ifs with h1 h2
    · rfl
    · exact absurd ⟨hc, hvc, hst⟩ h1
    · exact absurd ⟨hc, hvc, hst⟩ h1

/-- C1 witness: the theorem applied at a concrete state and metric. -/
theorem evalStep_precedence_monotone_witness :
    (evalStep "MAX" 5 10 { status := WARNING, message := "w", perfdata := "|" }
        { name := "b", value := 12 }).status = CRITICAL
    ∧ (evalStep "MAX" 5 10 { status := CRITICAL, message := "m", perfdata := "|" }
        { name := "b", value := 12 }).message = "m" :=
  ⟨(evalStep_precedence_monotone "MAX" 5 10
      { status := WARNING, message := "w", perfdata := "|" }
      { name := "b", value := 12 } []).2.2.2.1
      (by norm_num) (by norm_num) (by norm_num) (by norm_num) (Or.inr rfl),
   ((evalStep_precedence_monotone "MAX" 5 10
      { status := CRITICAL, message := "m", perfdata := "|" }
      { name := "b", value := 12 } []).2.1 rfl).2⟩

lemma evalStep_disabled (e : String) (w c : Rat) (hw : w ≤ 0) (hc : c ≤ 0)
    (st : EvalState) (m : Metric) :
    (evalStep e w c st m).status = st.status
    ∧ (evalStep e w c st m).message = st.message := by
  unfold evalStep
  split_ifs with h1 h2
  · exact absurd h1.1 (not_lt.mpr hc)
  · exact absurd h2.1 (not_lt.mpr hw)
  · exact ⟨rfl, rfl⟩

lemma foldl_disabled (e : String) (w c : Rat) (hw : w ≤ 0) (hc : c ≤ 0)
    (ms : List Metric) (st : EvalState) :
    (List.foldl (evalStep e w c) st ms).status = st.status
    ∧ (List.foldl (evalStep e w c) st ms).message = st.message := by
  induction ms generalizing st with
  | nil => exact ⟨rfl, rfl⟩
  | cons m ms ih =>
    obtain ⟨hs, hm⟩ := evalStep_disabled e w c hw hc st m
    obtain ⟨hs2, hm2⟩ := ih (evalStep e w c st m)
    exact ⟨hs2.trans hs, hm2.trans hm⟩

/-- C2: when both thresholds are ≤ 0 they are inactive, so for every metric
list the evaluation status stays OK and the message stays
"Everything is OK". -/
theorem statusEval_disabled_thresholds (e : String) (w c : Rat)
    (hw : w ≤ 0) (hc : c ≤ 0) (ms : List Metric) :
    (statusEval e w c ms).status = OK
    ∧ (statusEval e w c ms).message = "Everything is OK" :=
  foldl_disabled e w c hw hc ms initState

/-- C2 witness: zero thresholds with a huge metric value still give OK. -/
theorem statusEval_disabled_thresholds_witness :
    (statusEval "MAX" 0 0 [{ name := "a", value := 1000000 }]).status = OK
    ∧ (statusEval "MAX" 0 0 [{ name := "a", value := 1000000 }]).message
        = "Everything is OK" :=
  statusEval_disabled_thresholds "MAX" 0 0 (by norm_num) (by norm_num)
    [{ name := "a", value := 1000000 }]

/-- C3: the Result Emitter prefixes the message according to the status
(with every unrecognized status mapping to "UNKNOWN - "), emits that single
line, and exits with a code numerically equal to the status. -/
theorem output_prefix_and_code (status : Int) (message : String) :
    (output status message).snd = status
    ∧ (status = OK → (output status message).fst = "OK - " ++ message)
    ∧ (status = WARNING → (output status message).fst = "WARNING - " ++ message)
    ∧ (status = CRITICAL → (output status message).fst = "CRITICAL - " ++ message)
    ∧ (status = UNKNOWN → (output status message).fst = "UNKNOWN - " ++ message)
    ∧ (status ≠ OK → status ≠ WARNING → status ≠ CRITICAL → status ≠ UNKNOWN →
        (output status message).fst = "UNKNOWN - " ++ message) := by
  refine ⟨rfl, ?_, ?_, ?_, ?_, ?_⟩
  · intro h
    simp [output, h, OK, WARNING, CRITICAL, UNKNOWN]
  · intro h
    simp [output, h, OK, WARNING, CRITICAL, UNKNOWN]
  · intro h
    simp [output, h, OK, WARNING, CRITICAL, UNKNOWN]
  · intro h
    simp [output, h, OK, WARNING, CRITICAL, UNKNOWN]
  · intro h0 h1 h2 h3
    simp [output, h0, h1, h2, h3]

/-- C3 witness: a recognized and an unrecognized status, both with exit code
equal to the status. -/
theorem output_prefix_and_code_witness :
    (output 2 "msg").snd = 2
    ∧ (output 2 "msg").fst = "CRITICAL - " ++ "msg"
    ∧ (output 7 "msg").fst = "UNKNOWN - " ++ "msg" :=
  ⟨(output_prefix_and_code 2 "msg").1,
   (output_prefix_and_code 2 "msg").2.2.2.1 rfl,
   (output_prefix_and_code 7 "msg").2.2.2.2.2 (by decide) (by decide)
     (by decide) (by decide)⟩

/-- C4 counterexample: under MAX, a single-point series whose normalized
value is negative aggregates to 0, not to the Value Normalizer's output for
that point, because the running maximum starts at zero. -/
theorem evaluate_single_point_counterexample :
    evaluate "MAX" "DOUBLE" [{ value := TypedValue.doubleVal (-1) }] = some 0
    ∧ getFloatValue "DOUBLE" (TypedValue.doubleVal (-1)) = -1
    ∧ evaluate "MAX" "DOUBLE" [{ value := TypedValue.doubleVal (-1) }]
        ≠ some (getFloatValue "DOUBLE" (TypedValue.doubleVal (-1))) := by
  refine ⟨by decide, by decide, by decide⟩

/-- C4 amended: on a single-point series the aggregate equals the Value
Normalizer's output for that point under LAST and SUM unconditionally, and
under MAX whenever the point's normalized value is nonnegative (the zero
start of the running maximum masks negative values). -/
theorem evaluate_single_point (policy valueType : String) (p : Point)
    (hp : policy = "LAST" ∨ policy = "SUM"
      ∨ (policy = "MAX" ∧ 0 ≤ getFloatValue valueType p.value)) :
    evaluate policy valueType [p] = some (getFloatValue valueType p.value) := by
  rcases hp with h | h | ⟨h, hv⟩
  · rw [h]
    rfl
  · rw [h]
    simp [evaluate]
  · rw [h]
    simp only [evaluate, List.foldl]
    rw [if_neg (not_lt.mpr hv)]

/-- C4 witness: the amended theorem at a concrete point for each policy. -/
theorem evaluate_single_point_witness :
    evaluate "LAST" "INT64" [{ value := TypedValue.int64Val 7 }]
      = some (getFloatValue "INT64" (TypedValue.int64Val 7))
    ∧ evaluate "SUM" "INT64" [{ value := TypedValue.int64Val 7 }]
      = some (getFloatValue "INT64" (TypedValue.int64Val 7))
    ∧ evaluate "MAX" "INT64" [{ value := TypedValue.int64Val 7 }]
      = some (getFloatValue "INT64" (TypedValue.int64Val 7)) :=
  ⟨evaluate_single_point "LAST" "INT64" { value := TypedValue.int64Val 7 }
     (Or.inl rfl),
   evaluate_single_point "SUM" "INT64" { value := TypedValue.int64Val 7 }
     (Or.inr (Or.inl rfl)),
   evaluate_single_point "MAX" "INT64" { value := TypedValue.int64Val 7 }
     (Or.inr (Or.inr ⟨rfl, by decide⟩))⟩

lemma maxFold_all_neg (valueType : String) (points : List Point)
    (hneg : ∀ p ∈ points, getFloatValue valueType p.value < 0) :
    points.foldl (fun ret point =>
      let current := getFloatValue valueType point.value
      if current < ret then ret else current) 0 = 0 := by
  induction points with
  | nil => rfl
  | cons p ps ih =>
    have hp : getFloatValue valueType p.value < 0 := hneg p (List.mem_cons_self p ps)
    simp only [List.foldl]
    rw [if_pos hp]
    exact ih (fun q hq => hneg q (List.mem_cons_of_mem p hq))

/-- C5: MAX aggregation keeps a running maximum that starts at zero, so on a
non-empty series whose normalized values are all negative it returns 0,
not the true maximum of the series. -/
theorem evaluate_max_all_negative (valueType : String) (points : List Point)
    (hne : points ≠ [])
    (hneg : ∀ p ∈ points, getFloatValue valueType p.value < 0) :
    evaluate "MAX" valueType points = some 0
    ∧ ∀ p ∈ points, getFloatValue valueType p.value ≠ 0 := by
  constructor
  · simp only [evaluate]
    rw [maxFold_all_neg valueType points hneg]
  · exact fun p hp => ne_of_lt (hneg p hp)

/-- C5 witness: an all-negative two-point series aggregates to 0 under MAX. -/
theorem evaluate_max_all_negative_witness :
    evaluate "MAX" "DOUBLE"
      [{ value := TypedValue.doubleVal (-2) }, { value := TypedValue.doubleVal (-5) }]
      = some 0
    ∧ ∀ p ∈ [({ value := TypedValue.doubleVal (-2) } : Point),
             { value := TypedValue.doubleVal (-5) }],
        getFloatValue "DOUBLE" p.value ≠ 0 :=
  evaluate_max_all_negative "DOUBLE"
    [{ value := TypedValue.doubleVal (-2) }, { value := TypedValue.doubleVal (-5) }]
    (by decide) (by decide)

lemma sumFold_eq_sum (valueType : String) (points : List Point) (a : Rat) :
    points.foldl (fun ret point => ret + getFloatValue valueType point.value) a
      = a + (points.map (fun point => getFloatValue valueType point.value)).sum := by
  induction points generalizing a with
  | nil => simp
  | cons p ps ih =>
    simp only [List.foldl, List.map, List.sum_cons]
    rw [ih]
    ring

/-- C6: SUM aggregation is invariant under permutation of the points (it is
the arithmetic sum of all normalized values), while LAST depends only on the
first point: two sequences with the same first point have equal LAST
results. -/
theorem evaluate_sum_perm_last_first (valueType : String) :
    (∀ ps qs : List Point, List.Perm ps qs →
       evaluate "SUM" valueType ps = evaluate "SUM" valueType qs)
    ∧ (∀ ps : List Point,
       evaluate "SUM" valueType ps
         = some ((ps.map (fun point => getFloatValue valueType point.value)).sum))
    ∧ (∀ p : Point, ∀ ps qs : List Point,
       evaluate "LAST" valueType (p :: ps) = evaluate "LAST" valueType (p :: qs)) := by
  have hsum : ∀ ps : List Point,
      evaluate "SUM" valueType ps
        = some ((ps.map (fun point => getFloatValue valueType point.value)).sum) := by
    intro ps
    simp only [evaluate]
    rw [sumFold_eq_sum valueType ps 0, zero_add]
  refine ⟨?_, hsum, ?_⟩
  · intro ps qs hperm
    rw [hsum ps, hsum qs]
    exact congrArg some (List.Perm.sum_eq (hperm.map _))
  · intro p ps qs
    rfl

/-- C6 witness: a concrete permutation gives equal SUM results, and LAST
ignores everything after the first point. -/
theorem evaluate_sum_perm_last_first_witness :
    evaluate "SUM" "INT64"
        [{ value := TypedValue.int64Val 3 }, { value := TypedValue.int64Val 4 }]
      = evaluate "SUM" "INT64"
        [{ value := TypedValue.int64Val 4 }, { value := TypedValue.int64Val 3 }]
    ∧ evaluate "LAST" "INT64"
        [{ value := TypedValue.int64Val 3 }, { value := TypedValue.int64Val 4 }]
      = evaluate "LAST" "INT64"
        [{ value := TypedValue.int64Val 3 }, { value := TypedValue.int64Val 9 }] :=
  ⟨(evaluate_sum_perm_last_first "INT64").1
     [{ value := TypedValue.int64Val 3 }, { value := TypedValue.int64Val 4 }]
     [{ value := TypedValue.int64Val 4 }, { value := TypedValue.int64Val 3 }]
     (by decide),
   (evaluate_sum_perm_last_first "INT64").2.2
     { value := TypedValue.int64Val 3 }
     [{ value := TypedValue.int64Val 4 }]
     [{ value := TypedValue.int64Val 9 }]⟩

lemma foldl_perfdata (e : String) (w c : Rat) (ms : List Metric) (st : EvalState) :
    (List.foldl (evalStep e w c) st ms).perfdata
      = st.perfdata ++ perfConcat w c ms := by
  induction ms generalizing st with
  | nil =>
    simp only [List.foldl, perfConcat]
    exact (String.append_empty st.perfdata).symm
  | cons m ms ih =>
    simp only [List.foldl, perfConcat]
    rw [ih (evalStep e w c st m), evalStep_perfdata, String.append_assoc]

/-- C7: the evaluation starts at status OK, message "Everything is OK",
perfdata "|"; the perfdata of the full fold is "|" followed by one
performance-data token per metric in input order, breach or not; and the
numeric fields of a breach message are the value and the threshold truncated
to integers. -/
theorem statusEval_init_perfdata_truncation (e : String) (w c : Rat)
    (ms : List Metric) (n : String) (v : Rat) :
    (statusEval e w c []).status = OK
    ∧ (statusEval e w c []).message = "Everything is OK"
    ∧ (statusEval e w c []).perfdata = "|"
    ∧ (statusEval e w c ms).perfdata = "|" ++ perfConcat w c ms
    ∧ perfToken w c { name := n, value := v }
        = n ++ "=" ++ formatF v ++ ";" ++ toString (truncToInt w) ++ ";"
          ++ toString (truncToInt c) ++ " "
    ∧ (c > 0 → v ≥ c →
        (statusEval e w c [{ name := n, value := v }]).message
          = n ++ " " ++ e ++ " value: " ++ toString (truncToInt v)
            ++ " over " ++ toString (truncToInt c)) := by
  refine ⟨rfl, rfl, rfl, ?_, rfl, ?_⟩
  · exact foldl_perfdata e w c ms initState
  · intro hc hv
    simp only [statusEval, List.foldl, evalStep]
    rw [if_pos ⟨hc, hv, Or.inl rfl⟩]
    rfl

/-- C7 witness: concrete fold showing two tokens accumulated in input order
and a breach message with truncated integers. -/
theorem statusEval_init_perfdata_truncation_witness :
    (statusEval "MAX" 5 10 [{ name := "a", value := 3 }, { name := "b", value := 12 }]).perfdata
      = "|" ++ perfConcat 5 10 [{ name := "a", value := 3 }, { name := "b", value := 12 }]
    ∧ (statusEval "MAX" 5 10 [{ name := "b", value := 51 / 4 }]).message
      = "b" ++ " " ++ "MAX" ++ " value: " ++ toString (truncToInt (51 / 4))
        ++ " over " ++ toString (truncToInt (10 : Rat)) :=
  ⟨(statusEval_init_perfdata_truncation "MAX" 5 10
      [{ name := "a", value := 3 }, { name := "b", value := 12 }] "b" 12).2.2.2.1,
   (statusEval_init_perfdata_truncation "MAX" 5 10 [] "b" (51 / 4)).2.2.2.2.2
      (by norm_num) (by norm_num)⟩

/-- C8: with an empty point sequence the aggregator returns 0 under SUM and
MAX; any policy other than LAST, SUM, MAX returns 0 on every sequence; LAST
on the empty sequence hits the unguarded `points[0]` (modelled `none`), and
LAST is total exactly on non-empty sequences. -/
theorem evaluate_empty_and_default (valueType : String) :
    evaluate "SUM" valueType [] = some 0
    ∧ evaluate "MAX" valueType [] = some 0
    ∧ (∀ policy : String, policy ≠ "LAST" → policy ≠ "SUM" → policy ≠ "MAX" →
        ∀ points : List Point, evaluate policy valueType points = some 0)
    ∧ evaluate "LAST" valueType [] = none
    ∧ (∀ points : List Point, points ≠ [] →
        ∃ r : Rat, evaluate "LAST" valueType points = some r) := by
  refine ⟨rfl, rfl, ?_, rfl, ?_⟩
  · intro policy h1 h2 h3 points
    unfold evaluate
    split
    · exact absurd rfl h1
    · exact absurd rfl h2
    · exact absurd rfl h3
    · rfl
  · intro points hne
    rcases points with _ | ⟨p, ps⟩
    · exact absurd rfl hne
    · exact ⟨getFloatValue valueType p.value, rfl⟩

/-- C8 witness: an unrecognized policy on a non-empty series gives 0, LAST
on the empty series is the panic, LAST on a singleton succeeds. -/
theorem evaluate_empty_and_default_witness :
    evaluate "AVG" "INT64" [{ value := TypedValue.int64Val 9 }] = some 0
    ∧ evaluate "LAST" "INT64" [] = none
    ∧ ∃ r : Rat, evaluate "LAST" "INT64" [{ value := TypedValue.int64Val 9 }] = some r :=
  ⟨(evaluate_empty_and_default "INT64").2.2.1 "AVG" (by decide) (by decide) (by decide)
     [{ value := TypedValue.int64Val 9 }],
   (evaluate_empty_and_default "INT64").2.2.2.1,
   (evaluate_empty_and_default "INT64").2.2.2.2
     [{ value := TypedValue.int64Val 9 }] (by decide)⟩

lemma evaluate_nil_of_ne_last (e valueType : String) (he : e ≠ "LAST") :
    evaluate e valueType [] = some 0 := by
  unfold evaluate
  split
  · exact absurd rfl he
  · rfl
  · rfl
  · rfl

lemma processResponses_all_empty (e : String) (he : e ≠ "LAST")
    (groups : List TimeSeries) (acc : List Metric) (len : Nat)
    (hempty : ∀ ts ∈ groups, ts.points = []) :
    ∃ ms : List Metric,
      processResponses e (groups.map Except.ok) acc len = Sum.inr (ms, len) := by
  induction groups generalizing acc with
  | nil => exact ⟨acc, rfl⟩
  | cons g gs ih =>
    have hg : g.points = [] := hempty g (List.mem_cons_self g gs)
    obtain ⟨ms, hms⟩ :=
      ih (acc ++ [{ name := resolveName g.labels, value := 0 }])
        (fun ts hts => hempty ts (List.mem_cons_of_mem g hts))
    refine ⟨ms, ?_⟩
    simp only [List.map, processResponses, hg, evaluate_nil_of_ne_last e g.valueType he]
    simpa [hg] using hms

/-- C9 counterexample: with aggregation policy LAST, a response whose only
group has zero points (so zero points in total) makes the program panic on
`points[0]` instead of emitting UNKNOWN "Time series is empty.". -/
theorem runMain_zero_points_counterexample :
    runMain { evalution := "LAST", critical := 0, warning := 0 }
        [Except.ok { valueType := "INT64", labels := [], points := [] }]
      = MainOutcome.panics
    ∧ runMain { evalution := "LAST", critical := 0, warning := 0 }
        [Except.ok { valueType := "INT64", labels := [], points := [] }]
      ≠ emit UNKNOWN "Time series is empty." :=
  ⟨by decide, by decide⟩

lemma runMain_all_empty_sum_max (opts : Opts) (groups : List TimeSeries)
    (hempty : ∀ ts ∈ groups, ts.points = [])
    (hpol : opts.evalution = "SUM" ∨ opts.evalution = "MAX") :
    runMain opts (groups.map Except.ok)
      = MainOutcome.exits ("UNKNOWN - " ++ "Time series is empty.") 3 := by
  have he : opts.evalution ≠ "LAST" := by
    rcases hpol with h | h <;> rw [h] <;> decide
  obtain ⟨ms, hms⟩ := processResponses_all_empty opts.evalution he groups [] 0 hempty
  simp only [runMain, hms]
  rfl

/-- C9 amended: for every option set — any policy, any thresholds — an
iteration error makes the program emit UNKNOWN "Failed to fetch time
series.", and an empty iteration (no groups at all) makes it emit UNKNOWN
"Time series is empty.", both without reaching threshold evaluation; a
zero-point overall result that contains groups additionally requires that
the per-group aggregation does not panic first, i.e. that the policy is SUM
or MAX (under LAST a zero-point group panics instead, see the
counterexample). -/
theorem runMain_error_and_empty (opts : Opts)
    (rest : List (Except Unit TimeSeries)) (groups : List TimeSeries)
    (hempty : ∀ ts ∈ groups, ts.points = []) :
    runMain opts (Except.error () :: rest)
      = MainOutcome.exits ("UNKNOWN - " ++ "Failed to fetch time series.") 3
    ∧ runMain opts []
      = MainOutcome.exits ("UNKNOWN - " ++ "Time series is empty.") 3
    ∧ ((opts.evalution = "SUM" ∨ opts.evalution = "MAX") →
        runMain opts (groups.map Except.ok)
          = MainOutcome.exits ("UNKNOWN - " ++ "Time series is empty.") 3) :=
  ⟨rfl, rfl, fun hpol => runMain_all_empty_sum_max opts groups hempty hpol⟩

/-- C9 witness: under policy LAST the error emission and the no-groups
emission still happen (they precede any aggregation), and a concrete SUM
configuration with one zero-point group reports the empty series. -/
theorem runMain_error_and_empty_witness :
    runMain { evalution := "LAST", critical := 10, warning := 5 } [Except.error ()]
      = MainOutcome.exits ("UNKNOWN - " ++ "Failed to fetch time series.") 3
    ∧ runMain { evalution := "LAST", critical := 10, warning := 5 } []
      = MainOutcome.exits ("UNKNOWN - " ++ "Time series is empty.") 3
    ∧ runMain { evalution := "SUM", critical := 10, warning := 5 }
        ([{ valueType := "INT64", labels := [], points := [] }].map Except.ok)
      = MainOutcome.exits ("UNKNOWN - " ++ "Time series is empty.") 3 :=
  ⟨(runMain_error_and_empty { evalution := "LAST", critical := 10, warning := 5 }
      [] [] (by decide)).1,
   (runMain_error_and_empty { evalution := "LAST", critical := 10, warning := 5 }
      [] [] (by decide)).2.1,
   (runMain_error_and_empty { evalution := "SUM", critical := 10, warning := 5 }
      [] [{ valueType := "INT64", labels := [], points := [] }]
      (by decide)).2.2 (Or.inl rfl)⟩

/-- C10: a response whose groups all carry zero points reaches the UNKNOWN
"Time series is empty." report only under SUM or MAX; under LAST the
unguarded `points[0]` in the aggregator is hit on the empty slice before the
emptiness check can run, and the program panics. -/
theorem runMain_all_empty_groups (opts : Opts) (groups : List TimeSeries)
    (hne : groups ≠ []) (hempty : ∀ ts ∈ groups, ts.points = []) :
    ((opts.evalution = "SUM" ∨ opts.evalution = "MAX") →
      runMain opts (groups.map Except.ok)
        = MainOutcome.exits ("UNKNOWN - " ++ "Time series is empty.") 3)
    ∧ (opts.evalution = "LAST" →
      runMain opts (groups.map Except.ok) = MainOutcome.panics) := by
  constructor
  · intro hpol
    exact runMain_all_empty_sum_max opts groups hempty hpol
  · intro hl
    rcases groups with _ | ⟨g, gs⟩
    · exact absurd rfl hne
    · have hg : g.points = [] := hempty g (List.mem_cons_self g gs)
      have hev : evaluate "LAST" g.valueType [] = none := rfl
      simp only [runMain, List.map, processResponses, hl, hg, hev]

/-- C10 witness: one zero-point group under MAX reports the empty series;
the same group under LAST panics. -/
theorem runMain_all_empty_groups_witness :
    runMain { evalution := "MAX", critical := 0, warning := 0 }
        ([{ valueType := "INT64", labels := [], points := [] }].map Except.ok)
      = MainOutcome.exits ("UNKNOWN - " ++ "Time series is empty.") 3
    ∧ runMain { evalution := "LAST", critical := 0, warning := 0 }
        ([{ valueType := "INT64", labels := [], points := [] }].map Except.ok)
      = MainOutcome.panics :=
  ⟨(runMain_all_empty_groups { evalution := "MAX", critical := 0, warning := 0 }
      [{ valueType := "INT64", labels := [], points := [] }]
      (List.cons_ne_nil _ _) (by decide)).1 (Or.inr rfl),
   (runMain_all_empty_groups { evalution := "LAST", critical := 0, warning := 0 }
      [{ valueType := "INT64", labels := [], points := [] }]
      (List.cons_ne_nil _ _) (by decide)).2 rfl⟩

end Gcp
